import Mathlib

/-!
Shallow embedding of the wallet server's core (`src/services/wallet_service.rs`,
`src/services/web3_service.rs`, `src/errors/mod.rs`, `src/models/mod.rs`).

Modelling conventions:
* Rust `Result<T, AppError>` becomes `Except AppError T`.
* Machine integers (`u64`, `U256`) become `Nat`; byte arrays become `List Nat`
  (each entry a byte value).
* The external `secp256k1` and `tiny_keccak` crates are out of scope of the
  repository; their operations enter the development as the fields of a
  `SecpCtx` record over abstract key types, exactly at the interface the
  wallet code calls (`generate_keypair`, `from_secret_key`, string encoding
  and parsing of keys, `serialize_uncompressed`, `keccak256`, and the Debug
  formatting of an `Address`).  Theorems that need facts about those crates
  (for example that string encoding of a key parses back) take them as
  explicit hypotheses.
* `utils.rs` is referenced by the services but absent from the repository
  sources; its four functions are modelled from the spec where needed and
  marked as such in their doc comments.
* File I/O is modelled by explicit state passing over a map from paths to
  file contents; the node connection is modelled by a record of response
  functions standing for the remote node's behaviour.
-/

/-- Error enumeration of `src/errors/mod.rs` (`AppError`).  Each constructor
carries the message string the Rust variant carries. -/
inductive AppError where
  | WalletNotFound : AppError
  | WalletCreationFailed : String → AppError
  | WalletLoadFailed : String → AppError
  | InvalidPrivateKey : String → AppError
  | InvalidPublicKey : String → AppError
  | Web3ConnectionFailed : String → AppError
  | Web3NotAvailable : AppError
  | InvalidAddress : String → AppError
  | TransactionFailed : String → AppError
  | BalanceQueryFailed : String → AppError
  | ConfigurationError : String → AppError
  | InternalError : String → AppError
  | ValidationError : String → AppError
  | NotFound : String → AppError
deriving DecidableEq, Repr

/-- Machine-readable error kind, the `error_type` string attached to each
variant by `IntoResponse for AppError` in `src/errors/mod.rs` (lines 66-81). -/
def AppError.errorType : AppError → String
  | .WalletNotFound => "WALLET_NOT_FOUND"
  | .WalletCreationFailed _ => "WALLET_CREATION_FAILED"
  | .WalletLoadFailed _ => "WALLET_LOAD_FAILED"
  | .InvalidPrivateKey _ => "INVALID_PRIVATE_KEY"
  | .InvalidPublicKey _ => "INVALID_PUBLIC_KEY"
  | .Web3ConnectionFailed _ => "WEB3_CONNECTION_FAILED"
  | .Web3NotAvailable => "WEB3_NOT_AVAILABLE"
  | .InvalidAddress _ => "INVALID_ADDRESS"
  | .TransactionFailed _ => "TRANSACTION_FAILED"
  | .BalanceQueryFailed _ => "BALANCE_QUERY_FAILED"
  | .ConfigurationError _ => "CONFIGURATION_ERROR"
  | .InternalError _ => "INTERNAL_ERROR"
  | .ValidationError _ => "VALIDATION_ERROR"
  | .NotFound _ => "NOT_FOUND"

/-- HTTP status code attached to each variant by `IntoResponse for AppError`
in `src/errors/mod.rs` (lines 66-81). -/
def AppError.statusCode : AppError → Nat
  | .WalletNotFound => 404
  | .WalletCreationFailed _ => 500
  | .WalletLoadFailed _ => 500
  | .InvalidPrivateKey _ => 400
  | .InvalidPublicKey _ => 400
  | .Web3ConnectionFailed _ => 503
  | .Web3NotAvailable => 503
  | .InvalidAddress _ => 400
  | .TransactionFailed _ => 500
  | .BalanceQueryFailed _ => 500
  | .ConfigurationError _ => 500
  | .InternalError _ => 500
  | .ValidationError _ => 400
  | .NotFound _ => 404

/-- The `AppResult<T>` alias of `src/errors/mod.rs`. -/
abbrev AppResult (α : Type) : Type := Except AppError α

/-- Error kind of a result: `some` of the kind string on the error path,
`none` on the success path. -/
def resultKind {α : Type} : AppResult α → Option String
  | .error e => some e.errorType
  | .ok _ => none

/-- The `Account` record of `src/models/mod.rs`: three strings, the secret
key, the public key and the derived address, all in their canonical textual
encodings. -/
structure Account where
  secret_key : String
  public_key : String
  public_address : String
deriving DecidableEq, Repr

/-- Constructor `Account::new` of `src/models/mod.rs`. -/
def Account.new (secret_key public_key public_address : String) : Account :=
  { secret_key := secret_key, public_key := public_key,
    public_address := public_address }

/-- Model of `rand::rngs::JitterRng` as used by `generate_keypair`: the
constructor `JitterRng::new_with_timer(timer)` stores the timer callback and
cannot fail (the timer-quality test of the `rand` crate is a separate method
the wallet code never calls), so the model is a total wrapper around the
timer function. -/
structure JitterRng where
  timer : Nat → Nat

/-- Total constructor mirroring `JitterRng::new_with_timer`. -/
def JitterRng.new_with_timer (timer : Nat → Nat) : JitterRng :=
  { timer := timer }

/-- Interface to the external `secp256k1` / `tiny_keccak` crates, over
abstract secret-key and public-key types `SK` and `PK`.  The fields are the
exact crate operations the wallet service calls. -/
structure SecpCtx (SK PK : Type) where
  /-- `Secp256k1::generate_keypair(&mut rng)`: draws a keypair from the
  supplied randomness source. -/
  generate : JitterRng → SK × PK
  /-- `PublicKey::from_secret_key(&secp, &sk)`. -/
  from_secret_key : SK → PK
  /-- `SecretKey::to_string()`. -/
  sk_to_string : SK → String
  /-- `PublicKey::to_string()`. -/
  pk_to_string : PK → String
  /-- `SecretKey::from_str`, `none` when the string is not a valid key. -/
  sk_from_str : String → Option SK
  /-- `PublicKey::from_str`, `none` when the string is not a valid key. -/
  pk_from_str : String → Option PK
  /-- `PublicKey::serialize_uncompressed()`: the 65-byte uncompressed
  encoding, tag byte `0x04` first. -/
  serialize_uncompressed : PK → List Nat
  /-- `tiny_keccak::keccak256`: a 32-byte digest of any input. -/
  keccak : List Nat → List Nat
  /-- `format!("{:?}", address)` on a `web3::types::Address` value (the
  20-byte address, here `List Nat`). -/
  format_address : List Nat → String

/-- Embedding of `WalletService::generate_keypair`
(`src/services/wallet_service.rs` lines 25-29): builds a `JitterRng` from the
timer callback (`utils::get_nstime` in the source, here passed in as
`get_nstime`) and returns the generated keypair.  The source returns
`Ok(keypair)` unconditionally; there is no error path. -/
def generate_keypair {SK PK : Type} (ctx : SecpCtx SK PK)
    (get_nstime : Nat → Nat) : AppResult (SK × PK) :=
  let rng := JitterRng.new_with_timer get_nstime
  .ok (ctx.generate rng)

/-- Embedding of `WalletService::public_key_to_address`
(`src/services/wallet_service.rs` lines 32-37): serialize the public key
uncompressed, hash the bytes after the first with keccak256, and take the
digest from byte 12 on (`Address::from_slice(&hash[12..])`). -/
def public_key_to_address {SK PK : Type} (ctx : SecpCtx SK PK) (pk : PK) :
    List Nat :=
  let public_key_bytes := ctx.serialize_uncompressed pk
  let hash := ctx.keccak (public_key_bytes.drop 1)
  hash.drop 12

/-- Low-order `n` bytes of a digest: the last `n` entries. -/
def lowBytes (n : Nat) (digest : List Nat) : List Nat :=
  digest.drop (digest.length - n)

/-- Address derivation written from the SPEC's words (spec.md section 4.1):
take the uncompressed public-key encoding, drop its fixed leading tag byte,
hash the remaining bytes with the chain's canonical hash function, and take
the low-order 20 bytes of the digest. -/
def deriveAddress_spec {SK PK : Type} (ctx : SecpCtx SK PK) (pk : PK) :
    List Nat :=
  let encoding := ctx.serialize_uncompressed pk
  let digest := ctx.keccak (encoding.drop 1)
  lowBytes 20 digest

/-- Embedding of `WalletService::create_account`
(`src/services/wallet_service.rs` lines 40-52): generate a keypair, derive
the address, and store all three in their textual encodings. -/
def create_account {SK PK : Type} (ctx : SecpCtx SK PK)
    (get_nstime : Nat → Nat) : AppResult Account :=
  match generate_keypair ctx get_nstime with
  | .error e => .error e
  | .ok (secret_key, public_key) =>
    let address := public_key_to_address ctx public_key
    .ok (Account.new (ctx.sk_to_string secret_key) (ctx.pk_to_string public_key)
      (ctx.format_address address))

/-- Embedding of `WalletService::get_secret_key`
(`src/services/wallet_service.rs` lines 104-107). -/
def get_secret_key {SK PK : Type} (ctx : SecpCtx SK PK) (account : Account) :
    AppResult SK :=
  match ctx.sk_from_str account.secret_key with
  | some sk => .ok sk
  | none => .error (.InvalidPrivateKey "malformed secret key")

/-- Embedding of `WalletService::get_public_key`
(`src/services/wallet_service.rs` lines 110-113). -/
def get_public_key {SK PK : Type} (ctx : SecpCtx SK PK) (account : Account) :
    AppResult PK :=
  match ctx.pk_from_str account.public_key with
  | some pk => .ok pk
  | none => .error (.InvalidPublicKey "malformed public key")

/-- Embedding of `WalletService::validate_account`
(`src/services/wallet_service.rs` lines 116-134): parse both keys, check the
public key derived from the secret key against the stored one, then check
the Debug-formatted derived address against the stored address string. -/
def validate_account {SK PK : Type} [DecidableEq PK] (ctx : SecpCtx SK PK)
    (account : Account) : AppResult Bool :=
  match get_secret_key ctx account with
  | .error e => .error e
  | .ok secret_key =>
    match get_public_key ctx account with
    | .error e => .error e
    | .ok public_key =>
      let derived_public_key := ctx.from_secret_key secret_key
      if derived_public_key ≠ public_key then
        .error (.ValidationError "Public key doesn't match secret key")
      else
        let derived_address := public_key_to_address ctx public_key
        let expected_address := ctx.format_address derived_address
        if expected_address ≠ account.public_address then
          .error (.ValidationError "Address doesn't match public key")
        else
          .ok true

/-- Content of one file of the persistence layer: either the JSON
serialization of an `Account` (what `serde_json::to_writer_pretty` writes and
`serde_json::from_reader` reads back; the serde round trip on this record of
three strings is value-preserving, so the content is modelled by the
`Account` value itself) or arbitrary other text, which fails to
deserialize. -/
inductive FileData where
  | jsonAccount : Account → FileData
  | raw : String → FileData
deriving DecidableEq, Repr

/-- File-system state: a map from paths to file contents. -/
def FS : Type := String → Option FileData

/-- The empty file system. -/
def emptyFS : FS := fun _ => none

/-- Modelled from the spec: `utils::path_exists` (in the `utils.rs` the
services import, absent from the repository sources) reports whether a file
exists at the path. -/
def path_exists (fs : FS) (file_path : String) : Bool :=
  (fs file_path).isSome

/-- Embedding of `WalletService::save_account`
(`src/services/wallet_service.rs` lines 55-69): truncating write of the
serialized account at the path.  The happy path of the file system is
modelled (an I/O failure would surface as `WalletCreationFailed`); the write
itself replaces whatever was at the path. -/
def save_account (account : Account) (file_path : String) (fs : FS) :
    AppResult Unit × FS :=
  (.ok (), fun p => if p = file_path then some (.jsonAccount account) else fs p)

/-- Embedding of `WalletService::load_account`
(`src/services/wallet_service.rs` lines 72-88): `WalletNotFound` when the
path does not exist, `WalletLoadFailed` when the content does not
deserialize (or the open fails between the existence check and the read),
the stored account otherwise. -/
def load_account (file_path : String) (fs : FS) : AppResult Account :=
  if ¬ path_exists fs file_path then
    .error .WalletNotFound
  else
    match fs file_path with
    | some (.jsonAccount account) => .ok account
    | some (.raw _) => .error (.WalletLoadFailed "Failed to deserialize account")
    | none => .error (.WalletLoadFailed "Failed to open file")

/-- Embedding of `WalletService::initialize_wallet`
(`src/services/wallet_service.rs` lines 91-101): load the account when the
path exists, otherwise create a fresh one and save it.  Returns the result
together with the file system after the call. -/
def init_wallet {SK PK : Type} (ctx : SecpCtx SK PK) (get_nstime : Nat → Nat)
    (file_path : String) (fs : FS) : AppResult Account × FS :=
  if path_exists fs file_path then
    (load_account file_path fs, fs)
  else
    match create_account ctx get_nstime with
    | .error e => (.error e, fs)
    | .ok account =>
      match save_account account file_path fs with
      | (.ok _, fs1) => (.ok account, fs1)
      | (.error e, fs1) => (.error e, fs1)

/-- Value of a hex digit character, `none` for a non-hex character. -/
def hexDigitVal (c : Char) : Option Nat :=
  if '0' ≤ c ∧ c ≤ '9' then some (c.toNat - Char.toNat '0')
  else if 'a' ≤ c ∧ c ≤ 'f' then some (c.toNat - Char.toNat 'a' + 10)
  else if 'A' ≤ c ∧ c ≤ 'F' then some (c.toNat - Char.toNat 'A' + 10)
  else none

/-- Decode a list of hex digit characters, two per byte; `none` when a
character is not hex or the length is odd. -/
def hexBytes : List Char → Option (List Nat)
  | [] => some []
  | [_] => none
  | c1 :: c2 :: rest => do
    let hi ← hexDigitVal c1
    let lo ← hexDigitVal c2
    let tail ← hexBytes rest
    pure ((16 * hi + lo) :: tail)

/-- Model of `web3::types::Address::from_str` (the `FromStr` of the
`fixed-hash` `H160` type): strip an optional `0x` prefix, then require
exactly 40 hex digits, giving the 20 address bytes. -/
def Address.fromStr (s : String) : Option (List Nat) :=
  let cs := s.data
  let cs := if cs.take 2 = [ '0', 'x' ] then cs.drop 2 else cs
  if cs.length = 40 then hexBytes cs else none

/-- Modelled from the spec: `utils::eth_to_wei` (in the `utils.rs` the
services import, absent from the repository sources).  Section 4.3 of the
spec: `displayToSmallestUnit` multiplies the display amount by the scale
`10^18` and truncates to an integer.  Display amounts are modelled as exact
rationals in place of `f64`. -/
def eth_to_wei (amount_eth : ℚ) : Nat :=
  (Int.floor (amount_eth * 10 ^ 18)).toNat

/-- Modelled from the spec: `utils::wei_to_eth` (absent from the repository
sources).  Section 4.3 of the spec: `smallestUnitToDisplay` divides by the
scale `10^18`; modelled as an exact rational in place of `f64`. -/
def wei_to_eth (wei : Nat) : ℚ :=
  (wei : ℚ) / 10 ^ 18

/-- The `web3::types::TransactionParameters` record with its `Default`
values (`U256` as `Nat`, `Bytes` as `List Nat`, addresses as `List Nat`);
the crate's default sets `gas` to the base transfer cost 21000 and leaves
everything else empty. -/
structure TransactionParameters where
  nonce : Option Nat := none
  to_ : Option (List Nat) := none
  gas : Nat := 21000
  gas_price : Option Nat := none
  value : Nat := 0
  data : List Nat := []
  chain_id : Option Nat := none
  transaction_type : Option Nat := none
  access_list : Option (List (List Nat × List (List Nat))) := none
  max_fee_per_gas : Option Nat := none
  max_priority_fee_per_gas : Option Nat := none
deriving DecidableEq, Repr

/-- The `web3::types::CallRequest` fields `estimate_gas` fills (the Rust
field `from` is a Lean keyword, rendered `from_`). -/
structure CallRequest where
  from_ : Option (List Nat) := none
  to_ : Option (List Nat) := none
  value : Option Nat := none
deriving DecidableEq, Repr

/-- A signed transaction as returned by `web3.accounts().sign_transaction`;
only the raw payload is consumed by the service. -/
structure SignedTransaction where
  raw_transaction : Nat
deriving DecidableEq, Repr

/-- Behaviour of a live node connection (`Web3<WebSocket>`): one response
function per node call the service issues, each returning either the node's
answer or the node's error text. -/
structure NodeConnection (SK : Type) where
  balance : List Nat → Except String Nat
  block_number : Except String Nat
  gas_price : Except String Nat
  estimate_gas : CallRequest → Except String Nat
  sign_transaction : TransactionParameters → SK → Except String SignedTransaction
  send_raw_transaction : Nat → Except String Nat

/-- The `Web3Service` state of `src/services/web3_service.rs` lines 13-17:
an optional connection plus network metadata. -/
structure Web3Service (SK : Type) where
  connection : Option (NodeConnection SK)
  network_id : Nat
  rpc_url : String

/-- The `BalanceInfo` response record of `src/models/mod.rs`. -/
structure BalanceInfo where
  address : String
  balance_wei : String
  balance_eth : ℚ
  network_id : Nat
deriving DecidableEq, Repr

/-- The `TransactionRequest` record of `src/models/mod.rs`. -/
structure TransactionRequest where
  to_ : String
  amount_eth : ℚ
  gas_price : Option Nat
  gas_limit : Option Nat
deriving DecidableEq, Repr

/-- The `TransactionStatus` enumeration of `src/models/mod.rs`. -/
inductive TransactionStatus where
  | Pending : TransactionStatus
  | Confirmed : TransactionStatus
  | Failed : TransactionStatus
deriving DecidableEq, Repr

/-- The `TransactionInfo` response record of `src/models/mod.rs` (`from`
rendered `from_`, the timestamp as an abstract clock value). -/
structure TransactionInfo where
  transaction_hash : String
  from_ : String
  to_ : String
  amount_eth : ℚ
  gas_price : Option String
  gas_limit : Option Nat
  status : TransactionStatus
  timestamp : Nat
deriving DecidableEq, Repr

/-- Message `get_balance` / `create_transaction` / `estimate_gas` attach to
an address parse failure (`format!` of the address and the parse error). -/
def invalidAddrMsg (s : String) : String := s ++ ": invalid hex string"

/-- Message wrapped around a node signing error in `send_transaction`. -/
def signFailMsg (e : String) : String := "Failed to sign transaction: " ++ e

/-- Message wrapped around a node submission error in `send_transaction`. -/
def sendFailMsg (e : String) : String := "Failed to send transaction: " ++ e

/-- Message wrapped around a node estimation error in `estimate_gas`. -/
def estimateFailMsg (e : String) : String := "Gas estimation failed: " ++ e

/-- Message wrapped around a node gas-price error in `get_gas_price`. -/
def gasPriceFailMsg (e : String) : String := "Failed to get gas price: " ++ e

/-- Embedding of `Web3Service::get_balance`
(`src/services/web3_service.rs` lines 79-97): connection check first, then
address parse, then the node balance call, then unit conversion. -/
def get_balance {SK : Type} (svc : Web3Service SK) (address : String) :
    AppResult BalanceInfo :=
  match svc.connection with
  | none => .error .Web3NotAvailable
  | some web3 =>
    match Address.fromStr address with
    | none => .error (.InvalidAddress (invalidAddrMsg address))
    | some addr =>
      match web3.balance addr with
      | .error e =>
        .error (.BalanceQueryFailed e)
      | .ok balance_wei =>
        .ok { address := address,
              balance_wei := toString balance_wei,
              balance_eth := wei_to_eth balance_wei,
              network_id := svc.network_id }

/-- Embedding of `Web3Service::create_transaction`
(`src/services/web3_service.rs` lines 100-119): parse the destination, then
build parameters over the crate defaults with only `to` and `value` set.
The `_gas_price` and `_gas_limit` arguments are bound but never read, as in
the source (the gas customization block is commented out). -/
def create_transaction {SK : Type} (_svc : Web3Service SK) (toStr : String)
    (amount_eth : ℚ) (_gas_price _gas_limit : Option Nat) :
    AppResult TransactionParameters :=
  match Address.fromStr toStr with
  | none => .error (.InvalidAddress (invalidAddrMsg toStr))
  | some to_address =>
    .ok { to_ := some to_address, value := eth_to_wei amount_eth }

/-- Embedding of `Web3Service::send_transaction`
(`src/services/web3_service.rs` lines 122-162): connection check, parameter
construction, node-side signing, raw submission, then the pending record. -/
def send_transaction {SK : Type} (svc : Web3Service SK)
    (request : TransactionRequest) (secret_key : SK) (from_address : String)
    (now : Nat) : AppResult TransactionInfo :=
  match svc.connection with
  | none => .error .Web3NotAvailable
  | some web3 =>
    match create_transaction svc request.to_ request.amount_eth
        request.gas_price request.gas_limit with
    | .error e => .error e
    | .ok transaction =>
      match web3.sign_transaction transaction secret_key with
      | .error e => .error (.TransactionFailed (signFailMsg e))
      | .ok signed =>
        match web3.send_raw_transaction signed.raw_transaction with
        | .error e => .error (.TransactionFailed (sendFailMsg e))
        | .ok tx_hash =>
          .ok { transaction_hash := toString tx_hash,
                from_ := from_address,
                to_ := request.to_,
                amount_eth := request.amount_eth,
                gas_price := transaction.gas_price.map (fun gp => toString gp),
                gas_limit := none,
                status := .Pending,
                timestamp := now }

/-- Embedding of `Web3Service::estimate_gas`
(`src/services/web3_service.rs` lines 165-186): connection check, parse both
addresses, then the node estimate over a call request carrying the converted
value. -/
def estimate_gas {SK : Type} (svc : Web3Service SK) (toStr : String)
    (amount_eth : ℚ) (fromStr : String) : AppResult Nat :=
  match svc.connection with
  | none => .error .Web3NotAvailable
  | some web3 =>
    match Address.fromStr toStr with
    | none => .error (.InvalidAddress (invalidAddrMsg toStr))
    | some to_address =>
      match Address.fromStr fromStr with
      | none => .error (.InvalidAddress (invalidAddrMsg fromStr))
      | some from_address =>
        let tx : CallRequest :=
          { from_ := some from_address,
            to_ := some to_address,
            value := some (eth_to_wei amount_eth) }
        match web3.estimate_gas tx with
        | .error e => .error (.TransactionFailed (estimateFailMsg e))
        | .ok gas_estimate => .ok gas_estimate

/-- Embedding of `Web3Service::get_gas_price`
(`src/services/web3_service.rs` lines 189-197): connection check, then the
node gas-price call; a node error is wrapped in `Web3ConnectionFailed`. -/
def get_gas_price {SK : Type} (svc : Web3Service SK) : AppResult Nat :=
  match svc.connection with
  | none => .error .Web3NotAvailable
  | some web3 =>
    match web3.gas_price with
    | .error e => .error (.Web3ConnectionFailed (gasPriceFailMsg e))
    | .ok gas_price => .ok gas_price

/-- Toy textual encoding of a secret key, used only to instantiate the
abstract crate interface in concrete witnesses: the key `n` is written as
`n` repetitions of the letter a. -/
def toySkToString (n : Nat) : String :=
  String.mk (List.replicate n 'a')

/-- Toy secret-key parser: accepts exactly the strings of letters a. -/
def toySkFromStr (s : String) : Option Nat :=
  if s.data.all (fun c => c == 'a') then some s.data.length else none

/-- Toy textual encoding of a public key: `p` repetitions of the letter b. -/
def toyPkToString (p : Nat) : String :=
  String.mk (List.replicate p 'b')

/-- Toy public-key parser: accepts exactly the strings of letters b. -/
def toyPkFromStr (s : String) : Option Nat :=
  if s.data.all (fun c => c == 'b') then some s.data.length else none

/-- Concrete instantiation of the crate interface over `Nat` keys, used by
witnesses and counterexamples.  It satisfies the contracts the theorems
assume of the real crates: key generation returns a consistent pair, the
string encodings parse back, serialization is 65 bytes with tag 4, and the
digest function always returns 32 bytes. -/
def toyCtx : SecpCtx Nat Nat :=
  { generate := fun rng => (rng.timer 0, rng.timer 0 + 1),
    from_secret_key := fun sk => sk + 1,
    sk_to_string := toySkToString,
    pk_to_string := toyPkToString,
    sk_from_str := toySkFromStr,
    pk_from_str := toyPkFromStr,
    serialize_uncompressed := fun pk => 4 :: List.replicate 64 (pk % 251),
    keccak := fun l => (List.range 32).map (fun i => (l.sum + i) % 256),
    format_address := fun addr => toString addr }

/-- Round trip of the toy secret-key encoding. -/
theorem toySk_roundtrip (n : Nat) : toySkFromStr (toySkToString n) = some n := by
  simp [toySkFromStr, toySkToString, List.all_eq_true, List.mem_replicate]

/-- Round trip of the toy public-key encoding. -/
theorem toyPk_roundtrip (p : Nat) : toyPkFromStr (toyPkToString p) = some p := by
  simp [toyPkFromStr, toyPkToString, List.all_eq_true, List.mem_replicate]

/-- The toy digest function returns 32 bytes on every input. -/
theorem toyKeccak_length (l : List Nat) : (toyCtx.keccak l).length = 32 := by
  simp [toyCtx]

/-- C1 counterexample: with a degenerate constant timer — a stuck
nanosecond clock, i.e. a randomness source that is unavailable in the only
sense the jitter construction can detect — `generate_keypair` still returns
a keypair instead of failing: the call succeeds and its error kind is
`none`. -/
theorem generate_keypair_degenerate_timer_still_ok :
    generate_keypair toyCtx (fun _ => 0) = Except.ok (0, 1) ∧
    resultKind (generate_keypair toyCtx (fun _ => 0)) = none := by
  exact ⟨rfl, rfl⟩

/-- C1 (amended): `generate_keypair` seeds a jitter generator from the
nanosecond timer with the non-checking constructor and returns
`Ok(keypair)` unconditionally: for every crate interface and every timer it
succeeds, so no failure of the randomness source is ever reported (the
error enumeration has no key-generation-failure variant and the function
has no error path). -/
theorem generate_keypair_always_ok {SK PK : Type} (ctx : SecpCtx SK PK)
    (get_nstime : Nat → Nat) :
    ∃ keypair : SK × PK, generate_keypair ctx get_nstime = Except.ok keypair ∧
      resultKind (generate_keypair ctx get_nstime) = none := by
  exact ⟨ctx.generate (JitterRng.new_with_timer get_nstime), rfl, rfl⟩

/-- C2: on a public key whose uncompressed encoding is 65 bytes led by the
tag byte 4 (the secp256k1 contract), and for a 32-byte digest function (the
keccak256 contract), `public_key_to_address` hashes exactly the 64 bytes
after the tag, returns the low-order 20 bytes of the digest — it agrees
with the derivation written from the spec's words — has 20-byte output, and
is a deterministic function of the public-key encoding. -/
theorem public_key_to_address_spec_conformance {SK PK : Type}
    (ctx : SecpCtx SK PK) (pk : PK)
    (h65 : (ctx.serialize_uncompressed pk).length = 65)
    (h4 : (ctx.serialize_uncompressed pk).head? = some 4)
    (h32 : ∀ l, (ctx.keccak l).length = 32) :
    (∃ tail, ctx.serialize_uncompressed pk = 4 :: tail ∧ tail.length = 64 ∧
      public_key_to_address ctx pk = lowBytes 20 (ctx.keccak tail)) ∧
    public_key_to_address ctx pk = deriveAddress_spec ctx pk ∧
    (public_key_to_address ctx pk).length = 20 ∧
    ∀ pk2 : PK, ctx.serialize_uncompressed pk2 = ctx.serialize_uncompressed pk →
      public_key_to_address ctx pk2 = public_key_to_address ctx pk := by
  refine ⟨?_, ?_, ?_, ?_⟩
  · rcases hb : ctx.serialize_uncompressed pk with _ | ⟨b, tail⟩
    · rw [hb] at h4; simp at h4
    · rw [hb] at h4 h65
      simp only [List.head?, Option.some.injEq] at h4
      subst h4
      refine ⟨tail, rfl, by simpa using h65, ?_⟩
      simp [public_key_to_address, lowBytes, hb, h32 tail]
  · simp [public_key_to_address, deriveAddress_spec, lowBytes, h32]
  · simp [public_key_to_address, h32]
  · intro pk2 hser
    simp [public_key_to_address, hser]

/-- C2 witness: the hypotheses hold of the toy interface at public key 5,
and the derived address there has 20 bytes. -/
theorem public_key_to_address_spec_conformance_witness :
    (toyCtx.serialize_uncompressed 5).length = 65 ∧
    (toyCtx.serialize_uncompressed 5).head? = some 4 ∧
    public_key_to_address toyCtx 5 = deriveAddress_spec toyCtx 5 ∧
    (public_key_to_address toyCtx 5).length = 20 := by
  have h := public_key_to_address_spec_conformance toyCtx 5 (by decide)
    (by decide) toyKeccak_length
  exact ⟨by decide, by decide, h.2.1, h.2.2.1⟩

-- Decidable equality of results, for evaluation in concrete witnesses.
deriving instance DecidableEq for Except

/-- C3 (amended): on an account whose stored secret-key and public-key
strings parse (to `sk0` and `pk0`), `validate_account` fails with
`ValidationError` whenever a recomputed value disagrees with the stored one:
with the public-key mismatch message when the public key recomputed from the
secret key differs from the stored one, and with the address mismatch
message when the public keys agree but the address recomputed from the
public key differs from the stored address string.  (When the stored
public-key string does not even parse, the failure is `InvalidPublicKey`
instead — see the counterexample.) -/
theorem validate_account_mismatch_behaviour {SK PK : Type} [DecidableEq PK]
    (ctx : SecpCtx SK PK) (account : Account) (sk0 : SK) (pk0 : PK)
    (hsk : ctx.sk_from_str account.secret_key = some sk0)
    (hpk : ctx.pk_from_str account.public_key = some pk0) :
    (ctx.from_secret_key sk0 ≠ pk0 →
      validate_account ctx account =
        Except.error (AppError.ValidationError "Public key doesn't match secret key")) ∧
    (ctx.from_secret_key sk0 = pk0 →
      ctx.format_address (public_key_to_address ctx pk0) ≠ account.public_address →
      validate_account ctx account =
        Except.error (AppError.ValidationError "Address doesn't match public key")) := by
  constructor
  · intro hne
    simp [validate_account, get_secret_key, get_public_key, hsk, hpk, hne]
  · intro heq hne
    simp [validate_account, get_secret_key, get_public_key, hsk, hpk, heq, hne]

/-- A concrete account that passes validation under the toy interface. -/
def toyValidAccount : Account :=
  Account.new (toySkToString 1) (toyPkToString 2)
    (toyCtx.format_address (public_key_to_address toyCtx 2))

/-- The valid account with only its public-key field altered, to a string
that is not a valid key. -/
def toyTamperedAccount : Account :=
  { toyValidAccount with public_key := "zzz" }

/-- The valid account with only its address field altered. -/
def toyAddrTamperedAccount : Account :=
  { toyValidAccount with public_address := "0xdead" }

/-- C3 counterexample: a persisted record whose public-key field is altered
(to a string that no longer parses as a key) while the secret key is
unchanged makes `validate_account` fail with error kind
`INVALID_PUBLIC_KEY`, not the `VALIDATION_ERROR` kind the claim demands. -/
theorem validate_account_unparseable_tamper :
    validate_account toyCtx toyValidAccount = Except.ok true ∧
    toyTamperedAccount.secret_key = toyValidAccount.secret_key ∧
    toyTamperedAccount.public_address = toyValidAccount.public_address ∧
    toyTamperedAccount.public_key ≠ toyValidAccount.public_key ∧
    resultKind (validate_account toyCtx toyTamperedAccount) =
      some "INVALID_PUBLIC_KEY" ∧
    resultKind (validate_account toyCtx toyTamperedAccount) ≠
      some "VALIDATION_ERROR" := by
  refine ⟨by decide, rfl, rfl, by decide, by decide, by decide⟩

/-- C3 witness: the amended theorem applied to the concrete account whose
address field was altered: both stored keys parse, and validation fails with
the address mismatch `ValidationError`. -/
theorem validate_account_mismatch_behaviour_witness :
    toyCtx.sk_from_str toyAddrTamperedAccount.secret_key = some 1 ∧
    toyCtx.pk_from_str toyAddrTamperedAccount.public_key = some 2 ∧
    validate_account toyCtx toyAddrTamperedAccount =
      Except.error (AppError.ValidationError "Address doesn't match public key") := by
  refine ⟨by decide, by decide, ?_⟩
  exact (validate_account_mismatch_behaviour toyCtx toyAddrTamperedAccount 1 2
    (by decide) (by decide)).2 (by decide) (by decide)

/-- C10: under the contracts of the secp256k1 crate — the textual encodings
of both keys parse back to the same values, and a generated pair is
consistent (its public key is the one derived from its secret key) — every
account returned by `create_account` passes `validate_account`:
`validate_account ctx account = Ok true`. -/
theorem create_account_passes_validation {SK PK : Type} [DecidableEq PK]
    (ctx : SecpCtx SK PK) (get_nstime : Nat → Nat) (account : Account)
    (hsk_rt : ∀ k, ctx.sk_from_str (ctx.sk_to_string k) = some k)
    (hpk_rt : ∀ p, ctx.pk_from_str (ctx.pk_to_string p) = some p)
    (hgen : ∀ rng, (ctx.generate rng).2 = ctx.from_secret_key (ctx.generate rng).1)
    (hacc : create_account ctx get_nstime = Except.ok account) :
    validate_account ctx account = Except.ok true := by
  rcases hkp : ctx.generate (JitterRng.new_with_timer get_nstime) with ⟨sk, pk⟩
  have hpk2 : pk = ctx.from_secret_key sk := by
    have h := hgen (JitterRng.new_with_timer get_nstime)
    rw [hkp] at h
    exact h
  have hacc2 : account = Account.new (ctx.sk_to_string sk) (ctx.pk_to_string pk)
      (ctx.format_address (public_key_to_address ctx pk)) := by
    have h := hacc
    simp only [create_account, generate_keypair, hkp] at h
    exact (Except.ok.injEq _ _ ▸ congrArg id h).symm ▸ rfl
  subst hacc2
  simp [validate_account, get_secret_key, get_public_key, Account.new,
    hsk_rt, hpk_rt, ← hpk2]

/-- C10 witness: the contracts hold of the toy interface, and the account
created there from a concrete timer passes validation. -/
theorem create_account_passes_validation_witness :
    create_account toyCtx (fun _ => 2) =
      Except.ok (Account.new (toySkToString 2) (toyPkToString 3)
        (toyCtx.format_address (public_key_to_address toyCtx 3))) ∧
    validate_account toyCtx (Account.new (toySkToString 2) (toyPkToString 3)
        (toyCtx.format_address (public_key_to_address toyCtx 3))) =
      Except.ok true := by
  refine ⟨rfl, ?_⟩
  exact create_account_passes_validation toyCtx (fun _ => 2) _
    toySk_roundtrip toyPk_roundtrip (fun _ => rfl) rfl

/-- C4: persisting then loading returns an equal account:
`load_account path (save_account account path fs) = Ok account` for every
account, path and prior file-system state; and the bootstrap is idempotent:
whenever a first `initialize_wallet` run returns `Ok a`, a second run on the
same path (with any later timer state) returns the same account `a` by
value and leaves the file system unchanged. -/
theorem save_load_roundtrip_and_idempotent_init {SK PK : Type}
    (ctx : SecpCtx SK PK) (gt gt2 : Nat → Nat) (account a : Account)
    (file_path : String) (fs : FS)
    (h1 : (init_wallet ctx gt file_path fs).1 = Except.ok a) :
    load_account file_path (save_account account file_path fs).2 =
      Except.ok account ∧
    init_wallet ctx gt2 file_path (init_wallet ctx gt file_path fs).2 =
      (Except.ok a, (init_wallet ctx gt file_path fs).2) := by
  constructor
  · simp [load_account, save_account, path_exists]
  · by_cases hex : path_exists fs file_path = true
    · have h2 : init_wallet ctx gt file_path fs = (load_account file_path fs, fs) := by
        simp [init_wallet, hex]
      rw [h2] at h1 ⊢
      simp only at h1
      simp [init_wallet, hex, h1]
    · rcases hkp : ctx.generate (JitterRng.new_with_timer gt) with ⟨sk, pk⟩
      have h2 : init_wallet ctx gt file_path fs =
          (Except.ok (Account.new (ctx.sk_to_string sk) (ctx.pk_to_string pk)
            (ctx.format_address (public_key_to_address ctx pk))),
           (save_account (Account.new (ctx.sk_to_string sk) (ctx.pk_to_string pk)
            (ctx.format_address (public_key_to_address ctx pk))) file_path fs).2) := by
        simp [init_wallet, hex, create_account, generate_keypair, hkp, save_account]
      rw [h2] at h1 ⊢
      simp only at h1
      have h3 : Account.new (ctx.sk_to_string sk) (ctx.pk_to_string pk)
          (ctx.format_address (public_key_to_address ctx pk)) = a := by
        exact Except.ok.inj h1
      rw [h3]
      simp [init_wallet, path_exists, save_account, load_account]

/-- C4 witness: on the empty file system the first bootstrap run creates
the concrete toy account, the save/load round trip returns it unchanged,
and the second bootstrap run returns the same account by value with the
file system unchanged. -/
theorem save_load_roundtrip_and_idempotent_init_witness :
    (init_wallet toyCtx (fun _ => 2) "wallet.json" emptyFS).1 =
      Except.ok (Account.new (toySkToString 2) (toyPkToString 3)
        (toyCtx.format_address (public_key_to_address toyCtx 3))) ∧
    load_account "wallet.json"
        (save_account toyValidAccount "wallet.json" emptyFS).2 =
      Except.ok toyValidAccount ∧
    init_wallet toyCtx (fun _ => 7) "wallet.json"
        (init_wallet toyCtx (fun _ => 2) "wallet.json" emptyFS).2 =
      (Except.ok (Account.new (toySkToString 2) (toyPkToString 3)
        (toyCtx.format_address (public_key_to_address toyCtx 3))),
       (init_wallet toyCtx (fun _ => 2) "wallet.json" emptyFS).2) := by
  have h := save_load_roundtrip_and_idempotent_init toyCtx (fun _ => 2)
    (fun _ => 7) toyValidAccount (Account.new (toySkToString 2) (toyPkToString 3)
      (toyCtx.format_address (public_key_to_address toyCtx 3)))
    "wallet.json" emptyFS rfl
  exact ⟨rfl, h.1, h.2⟩

/-- C5: every transaction built by `create_transaction` carries
`value = eth_to_wei amount`; the conversion is exact multiplication by the
scale `10^18` whenever the scaled amount is integral (truncation changes
nothing then); and the concrete display amount `1.5` yields exactly
`1.5 * 10^18 = 1500000000000000000` smallest units. -/
theorem create_transaction_exact_value {SK : Type} (svc : Web3Service SK)
    (toStr : String) (amount_eth : ℚ) (gp gl : Option Nat)
    (tx : TransactionParameters)
    (h : create_transaction svc toStr amount_eth gp gl = Except.ok tx) :
    tx.value = eth_to_wei amount_eth ∧
    (0 ≤ amount_eth → (amount_eth * 10 ^ 18).den = 1 →
      (eth_to_wei amount_eth : ℚ) = amount_eth * 10 ^ 18) ∧
    eth_to_wei (3 / 2) = 1500000000000000000 := by
  refine ⟨?_, ?_, ?_⟩
  · rcases hp : Address.fromStr toStr with _ | addr
    · simp [create_transaction, hp] at h
    · simp only [create_transaction, hp] at h
      have h2 := Except.ok.inj h
      subst h2
      rfl
  · intro hpos hden
    have hq : (((amount_eth * 10 ^ 18).num : ℤ) : ℚ) = amount_eth * 10 ^ 18 :=
      (Rat.den_eq_one_iff _).mp hden
    have hnum : 0 ≤ (amount_eth * 10 ^ 18).num := by
      rw [Rat.num_nonneg]
      positivity
    rw [eth_to_wei, ← hq, Int.floor_intCast]
    exact_mod_cast Int.toNat_of_nonneg hnum
  · have h32 : (3 / 2 : ℚ) * 10 ^ 18 = ((1500000000000000000 : ℤ) : ℚ) := by
      norm_num
    rw [eth_to_wei, h32, Int.floor_intCast]
    rfl

/-- The 40-hex-digit destination string used in concrete web3 witnesses. -/
def toyToAddr : String :=
  String.mk (List.replicate 40 '1')

/-- A `Web3Service` with no live connection. -/
def disconnectedSvc : Web3Service Nat :=
  { connection := none, network_id := 1, rpc_url := "ws://localhost:8545" }

/-- The transaction parameters `create_transaction` builds for destination
`toyToAddr` and amount `3 / 2`. -/
def toyTx : TransactionParameters :=
  { to_ := some (List.replicate 20 17), value := eth_to_wei (3 / 2) }

/-- C5 witness: the builder succeeds on a concrete valid destination with
display amount `1.5`, and the resulting value field is exactly
`1500000000000000000` smallest units. -/
theorem create_transaction_exact_value_witness :
    create_transaction disconnectedSvc toyToAddr (3 / 2) none none =
      Except.ok toyTx ∧
    toyTx.value = eth_to_wei (3 / 2) ∧
    eth_to_wei (3 / 2) = 1500000000000000000 := by
  have hok : create_transaction disconnectedSvc toyToAddr (3 / 2) none none =
      Except.ok toyTx := by
    rfl
  have h := create_transaction_exact_value disconnectedSvc toyToAddr (3 / 2)
    none none toyTx hok
  exact ⟨hok, h.1, h.2.2⟩

/-- C6: the optional gas-price and gas-limit overrides of
`create_transaction` are inert: for every choice of overrides the result is
identical, field for field, to the result with no overrides (the arguments
are bound but never read; the gas customization block is commented out in
the source). -/
theorem create_transaction_gas_overrides_inert {SK : Type}
    (svc : Web3Service SK) (toStr : String) (amount_eth : ℚ)
    (gas_price gas_limit : Option Nat) :
    create_transaction svc toStr amount_eth gas_price gas_limit =
      create_transaction svc toStr amount_eth none none := rfl

/-- C7 (amended): `get_balance` checks the connection before parsing the
address.  With a live connection, a destination string that does not parse
fails with `InvalidAddress`, and the result is the same under every node
behaviour — no node call can influence it; a node error on a parsed
address surfaces as `BalanceQueryFailed` with the node's error text.  With
no connection the call fails with `Web3NotAvailable` (the spec's
`ChainUnavailable`) for every address, so a non-parsing address does not
produce `InvalidAddress` in that state. -/
theorem get_balance_error_priority {SK : Type} (svc : Web3Service SK)
    (conn : NodeConnection SK) (address : String) :
    (svc.connection = none →
      get_balance svc address = Except.error AppError.Web3NotAvailable) ∧
    (svc.connection = some conn → Address.fromStr address = none →
      get_balance svc address =
        Except.error (AppError.InvalidAddress (invalidAddrMsg address)) ∧
      ∀ conn2 : NodeConnection SK,
        get_balance { svc with connection := some conn2 } address =
          get_balance svc address) ∧
    (∀ addr e, svc.connection = some conn → Address.fromStr address = some addr →
      conn.balance addr = Except.error e →
      get_balance svc address = Except.error (AppError.BalanceQueryFailed e)) := by
  refine ⟨?_, ?_, ?_⟩
  · intro hc
    simp [get_balance, hc]
  · intro hc hp
    constructor
    · simp [get_balance, hc, hp]
    · intro conn2
      simp [get_balance, hc, hp]
  · intro addr e hc hp hb
    simp [get_balance, hc, hp, hb]

/-- C7 counterexample: with no connection, the non-parsing address of the
spec's concrete scenario fails with error kind `WEB3_NOT_AVAILABLE`, not
`INVALID_ADDRESS`: the claim's universally quantified first clause fails on
a disconnected service. -/
theorem get_balance_disconnected_invalid_address :
    Address.fromStr "not-a-valid-address" = none ∧
    get_balance disconnectedSvc "not-a-valid-address" =
      Except.error AppError.Web3NotAvailable ∧
    resultKind (get_balance disconnectedSvc "not-a-valid-address") ≠
      some "INVALID_ADDRESS" := by
  refine ⟨by decide, rfl, by decide⟩

/-- A node connection every one of whose calls fails, and a connection that
signs successfully but fails at submission; used by concrete witnesses. -/
def failingConn : NodeConnection Nat :=
  { balance := fun _ => Except.error "balance boom",
    block_number := Except.error "block boom",
    gas_price := Except.error "gas boom",
    estimate_gas := fun _ => Except.error "estimate boom",
    sign_transaction := fun _ _ => Except.error "sign boom",
    send_raw_transaction := fun _ => Except.error "send boom" }

/-- Service connected to the all-failing node. -/
def failingSvc : Web3Service Nat :=
  { connection := some failingConn, network_id := 1,
    rpc_url := "ws://localhost:8545" }

/-- A node connection that signs successfully and fails at submission. -/
def signOkConn : NodeConnection Nat :=
  { balance := fun _ => Except.error "balance boom",
    block_number := Except.error "block boom",
    gas_price := Except.error "gas boom",
    estimate_gas := fun _ => Except.error "estimate boom",
    sign_transaction := fun _ _ => Except.ok { raw_transaction := 7 },
    send_raw_transaction := fun _ => Except.error "send boom" }

/-- Service connected to the sign-then-fail node. -/
def signOkSvc : Web3Service Nat :=
  { connection := some signOkConn, network_id := 1,
    rpc_url := "ws://localhost:8545" }

/-- C7 witness: on the connected service, a non-parsing address fails with
`InvalidAddress`, and a node error on a parsed address surfaces as
`BalanceQueryFailed` with the node's text. -/
theorem get_balance_error_priority_witness :
    Address.fromStr "xyz" = none ∧
    get_balance failingSvc "xyz" =
      Except.error (AppError.InvalidAddress (invalidAddrMsg "xyz")) ∧
    get_balance failingSvc toyToAddr =
      Except.error (AppError.BalanceQueryFailed "balance boom") := by
  have h := get_balance_error_priority failingSvc failingConn "xyz"
  have h2 := get_balance_error_priority failingSvc failingConn toyToAddr
  exact ⟨by decide, (h.2.1 rfl (by decide)).1,
    h2.2.2 (List.replicate 20 17) "balance boom" rfl rfl rfl⟩

/-- The concrete transaction request used by web3 witnesses: destination
`toyToAddr`, display amount 1, no gas overrides. -/
def toyRequest : TransactionRequest :=
  { to_ := toyToAddr, amount_eth := 1, gas_price := none, gas_limit := none }

/-- C8: `send_transaction` invoked while no connection is established fails
with `Web3NotAvailable` (the spec's `ChainUnavailable`) — for every
request, key, sender and clock, so in particular before any signing or
submission could be consulted — and that error is distinct from the
`TransactionFailed` errors that signing or submission failures produce. -/
theorem send_transaction_disconnected_unavailable {SK : Type}
    (svc : Web3Service SK) (request : TransactionRequest) (secret_key : SK)
    (from_address : String) (now : Nat)
    (h : svc.connection = none) :
    send_transaction svc request secret_key from_address now =
      Except.error AppError.Web3NotAvailable ∧
    ∀ msg : String, AppError.Web3NotAvailable ≠ AppError.TransactionFailed msg := by
  constructor
  · simp [send_transaction, h]
  · intro msg hcontra
    cases hcontra

/-- C8 witness: the disconnected service refuses the concrete request with
`Web3NotAvailable`, which differs from the submission-failure error. -/
theorem send_transaction_disconnected_unavailable_witness :
    disconnectedSvc.connection = none ∧
    send_transaction disconnectedSvc toyRequest 1 toyToAddr 0 =
      Except.error AppError.Web3NotAvailable ∧
    AppError.Web3NotAvailable ≠ AppError.TransactionFailed (sendFailMsg "x") := by
  have h := send_transaction_disconnected_unavailable disconnectedSvc
    toyRequest 1 toyToAddr 0 rfl
  exact ⟨rfl, h.1, h.2 (sendFailMsg "x")⟩

/-- The parameters `create_transaction` builds for `toyRequest`. -/
def toyCreateTx : TransactionParameters :=
  { to_ := some (List.replicate 20 17), value := eth_to_wei 1 }

/-- C9 counterexample: a signing failure and a submission failure both
surface with the same machine-readable error kind `TRANSACTION_FAILED`
(and so does an estimation failure), while a gas-price query failure
surfaces as `WEB3_CONNECTION_FAILED`, the connectivity kind — the four
chain-operation failure modes do not get pairwise distinct kinds. -/
theorem signing_submission_same_error_kind :
    resultKind (send_transaction failingSvc toyRequest 1 toyToAddr 0) =
      some "TRANSACTION_FAILED" ∧
    resultKind (send_transaction signOkSvc toyRequest 1 toyToAddr 0) =
      some "TRANSACTION_FAILED" ∧
    resultKind (send_transaction failingSvc toyRequest 1 toyToAddr 0) =
      resultKind (send_transaction signOkSvc toyRequest 1 toyToAddr 0) ∧
    resultKind (estimate_gas failingSvc toyToAddr 1 toyToAddr) =
      some "TRANSACTION_FAILED" ∧
    resultKind (get_gas_price failingSvc) = some "WEB3_CONNECTION_FAILED" := by
  exact ⟨rfl, rfl, rfl, rfl, rfl⟩

/-- C9 (amended): the error kinds the chain operations actually produce:
a node gas-price failure surfaces as `Web3ConnectionFailed` (the same kind
as connection failures), while gas-estimation, signing and submission
failures all surface as `TransactionFailed`, distinguished only by their
message prefixes — not as four distinct kinds. -/
theorem chain_operation_error_kinds {SK : Type} (svc : Web3Service SK)
    (conn : NodeConnection SK) (hc : svc.connection = some conn) :
    (∀ e, conn.gas_price = Except.error e →
      get_gas_price svc =
        Except.error (AppError.Web3ConnectionFailed (gasPriceFailMsg e))) ∧
    (∀ toStr amount fromStr ta fa e,
      Address.fromStr toStr = some ta → Address.fromStr fromStr = some fa →
      conn.estimate_gas
          { from_ := some fa, to_ := some ta, value := some (eth_to_wei amount) } =
        Except.error e →
      estimate_gas svc toStr amount fromStr =
        Except.error (AppError.TransactionFailed (estimateFailMsg e))) ∧
    (∀ request (secret_key : SK) from_address now tx e,
      create_transaction svc request.to_ request.amount_eth request.gas_price
        request.gas_limit = Except.ok tx →
      conn.sign_transaction tx secret_key = Except.error e →
      send_transaction svc request secret_key from_address now =
        Except.error (AppError.TransactionFailed (signFailMsg e))) ∧
    (∀ request (secret_key : SK) from_address now tx signed e,
      create_transaction svc request.to_ request.amount_eth request.gas_price
        request.gas_limit = Except.ok tx →
      conn.sign_transaction tx secret_key = Except.ok signed →
      conn.send_raw_transaction signed.raw_transaction = Except.error e →
      send_transaction svc request secret_key from_address now =
        Except.error (AppError.TransactionFailed (sendFailMsg e))) := by
  refine ⟨?_, ?_, ?_, ?_⟩
  · intro e he
    simp [get_gas_price, hc, he]
  · intro toStr amount fromStr ta fa e hta hfa he
    simp [estimate_gas, hc, hta, hfa, he]
  · intro request secret_key from_address now tx e hct hsign
    simp [send_transaction, hc, hct, hsign]
  · intro request secret_key from_address now tx signed e hct hsign hsend
    simp [send_transaction, hc, hct, hsign, hsend]

/-- C9 witness: the amended mapping exercised on concrete failing nodes:
gas price → `Web3ConnectionFailed`, estimation / signing / submission →
`TransactionFailed` with their respective message prefixes. -/
theorem chain_operation_error_kinds_witness :
    get_gas_price failingSvc =
      Except.error (AppError.Web3ConnectionFailed (gasPriceFailMsg "gas boom")) ∧
    estimate_gas failingSvc toyToAddr 1 toyToAddr =
      Except.error (AppError.TransactionFailed (estimateFailMsg "estimate boom")) ∧
    send_transaction failingSvc toyRequest 1 toyToAddr 0 =
      Except.error (AppError.TransactionFailed (signFailMsg "sign boom")) ∧
    send_transaction signOkSvc toyRequest 1 toyToAddr 0 =
      Except.error (AppError.TransactionFailed (sendFailMsg "send boom")) := by
  have h1 := chain_operation_error_kinds failingSvc failingConn rfl
  have h2 := chain_operation_error_kinds signOkSvc signOkConn rfl
  refine ⟨h1.1 "gas boom" rfl, ?_, ?_, ?_⟩
  · exact h1.2.1 toyToAddr 1 toyToAddr (List.replicate 20 17)
      (List.replicate 20 17) "estimate boom" rfl rfl rfl
  · exact h1.2.2.1 toyRequest 1 toyToAddr 0 toyCreateTx "sign boom" rfl rfl
  · exact h2.2.2.2 toyRequest 1 toyToAddr 0 toyCreateTx
      { raw_transaction := 7 } "send boom" rfl rfl rfl
